import Mathlib

/-!
Verification of the closx command-execution core: the policy engine and
confirmation flow of `src/mastra/tools/shell-execute.ts`, the event-race
semantics of its two process-supervision rewrites, the `<shell>` tag
extraction of `src/cli/handlers/shell-tag-processor.ts`, and the
orchestration loop of `src/cli/terminal-agent.ts`.

Strings are modelled over `List Char`; the JavaScript string operations
used by the source (`startsWith`, `includes`, `trim`, `replace` of all
backticks) are reproduced character-by-character.
-/

namespace Closx

/-- JavaScript `command.startsWith(entry)`: code-unit prefix test. -/
def jsStartsWith (s pre : String) : Bool :=
  pre.data.isPrefixOf s.data

/-- Split `hay` at the first occurrence of `needle`: returns the part
before the occurrence and the part after it, or `none` when `needle`
does not occur.  This is the scanning behaviour of both JavaScript
`String.prototype.includes` and a `/g` regex search for a literal. -/
def splitFirst (needle : List Char) : List Char → Option (List Char × List Char)
  | [] => if needle.isPrefixOf ([] : List Char) then some ([], []) else none
  | c :: rest =>
      if needle.isPrefixOf (c :: rest) then some ([], (c :: rest).drop needle.length)
      else
        match splitFirst needle rest with
        | none => none
        | some (pre, post) => some (c :: pre, post)

/-- JavaScript `command.includes(entry)`: contiguous substring test. -/
def jsIncludes (s sub : String) : Bool :=
  (splitFirst sub.data s.data).isSome

/-- Drop leading and trailing whitespace from a character list. -/
def trimChars (l : List Char) : List Char :=
  ((l.dropWhile Char.isWhitespace).reverse.dropWhile Char.isWhitespace).reverse

/-- JavaScript `s.trim()` (ASCII whitespace, which is all the source relies on). -/
def jsTrim (s : String) : String :=
  String.mk (trimChars s.data)

/-- The backtick character deleted by the tag processor. -/
def backtick : Char := Char.ofNat 96

/-! ## Policy engine

Embedding of the mode/whitelist/blacklist decision of
`shellExecuteTool.execute` (`src/mastra/tools/shell-execute.ts`,
lines 129-196 of the confirmed rewrite).  The enum
`CommandExecutionMode` is imported by that file from `config/types`;
its value set `MESSAGE / AUTO / WHITELIST / BLACKLIST` is read off the
branches of the decision code, with `UNKNOWN` standing for any other
value (the code's trailing `else`, which defaults to WHITELIST
behaviour). -/

inductive CommandExecutionMode
  | MESSAGE
  | AUTO
  | WHITELIST
  | BLACKLIST
  | UNKNOWN
deriving DecidableEq, Repr

/-- Line 134: `whitelist.some(wlCmd => command.startsWith(wlCmd) || command === wlCmd)`. -/
def isOnWhitelist (whitelist : List String) (command : String) : Bool :=
  whitelist.any (fun wlCmd => jsStartsWith command wlCmd || command == wlCmd)

/-- Line 135: `blacklist.some(blCmd => command.includes(blCmd))`. -/
def isOnBlacklist (blacklist : List String) (command : String) : Bool :=
  blacklist.any (fun blCmd => jsIncludes command blCmd)

/-- The confirmation-relevant outputs of the policy check: the
`needsConfirmation`, `confirmationReason` and `confirmDefault` variables
of the source.  `needsConfirmation = false` is the ALLOW action,
`needsConfirmation = true` the CONFIRM action; reasons are the source's
strings `"auto" / "whitelist" / "blacklist" / "other"`. -/
structure PolicyOutcome where
  needsConfirmation : Bool
  confirmationReason : String
  confirmDefault : Bool
deriving DecidableEq, Repr

/-- Result of the policy check: either the MESSAGE-mode early resolution
(the command is reported but never run) or the confirmation data. -/
inductive PolicyResult
  | messageBlocked
  | proceed (p : PolicyOutcome)
deriving DecidableEq, Repr

/-- The decision table of `shellExecuteTool.execute`, lines 139-187. -/
def decidePolicy (mode : CommandExecutionMode) (whitelist blacklist : List String)
    (command : String) : PolicyResult :=
  let onWl := isOnWhitelist whitelist command
  let onBl := isOnBlacklist blacklist command
  match mode with
  | CommandExecutionMode.MESSAGE => PolicyResult.messageBlocked
  | CommandExecutionMode.AUTO => PolicyResult.proceed ⟨false, "auto", true⟩
  | CommandExecutionMode.WHITELIST =>
      if onWl then PolicyResult.proceed ⟨false, "whitelist", true⟩
      else if onBl then PolicyResult.proceed ⟨true, "blacklist", false⟩
      else PolicyResult.proceed ⟨true, "other", true⟩
  | CommandExecutionMode.BLACKLIST =>
      if onBl then PolicyResult.proceed ⟨true, "blacklist", false⟩
      else if onWl then PolicyResult.proceed ⟨false, "whitelist", true⟩
      else PolicyResult.proceed ⟨false, "other", true⟩
  | CommandExecutionMode.UNKNOWN =>
      if onWl then PolicyResult.proceed ⟨false, "whitelist", true⟩
      else if onBl then PolicyResult.proceed ⟨true, "blacklist", false⟩
      else PolicyResult.proceed ⟨true, "other", true⟩

/-- The tool's output record `{stdout, stderr, exitCode}` (`exitCode` is
`number | null` in the source). -/
structure ExecResult where
  stdout : String
  stderr : String
  exitCode : Option Int
deriving DecidableEq, Repr

/-- The MESSAGE-mode early resolution, lines 141-145: note `exitCode: 0`. -/
def messageModeResult : ExecResult :=
  ⟨"", "Command not executed (MESSAGE mode).", some 0⟩

/-- The cancelled-by-user resolution, lines 309-314: `exitCode: 1`. -/
def cancelResult (confirmationReason : String) : ExecResult :=
  ⟨"", "Command execution cancelled by user (" ++ confirmationReason ++ ").", some 1⟩

/-- The default command whitelist of `SettingsManager` (`src/config/settings.ts`). -/
def defaultCommandWhitelist : List String :=
  ["ls", "cat", "echo", "pwd", "find", "grep",
   "npm list", "npm run", "npm start", "npm test",
   "node --version", "npm --version"]

/-- The default command blacklist of `SettingsManager` (`src/config/settings.ts`). -/
def defaultCommandBlacklist : List String :=
  ["rm -rf", "sudo", "chmod 777", "mkfs",
   "dd if=/dev/zero", "mv /* /dev/null"]

/-! ## Confirmation flow

The inquirer interaction of lines 200-302: a menu
{execute, modify, details, reject}; the details menu re-offers
{execute, modify, reject}; a modify with unchanged or empty input falls
back to a run-original-or-reject question. -/

/-- A user choice at the menu shown after the details screen. -/
inductive DetailsChoice
  | execute
  | reject
  | modify (newCmd : String) (runOriginal : Bool)
deriving DecidableEq, Repr

/-- A user choice at the top-level confirmation menu.  For `modify`,
`newCmd` is the text entered and `runOriginal` is the answer given when
the text is empty or unchanged (run the original command or reject). -/
inductive UserChoice
  | execute
  | reject
  | modify (newCmd : String) (runOriginal : Bool)
  | details (thenChoice : DetailsChoice)
deriving DecidableEq, Repr

/-- What the tool does after the policy check: resolve early with a
result (MESSAGE mode or cancellation) or spawn a command. -/
inductive GateOutcome
  | resolvedEarly (r : ExecResult)
  | run (cmd : String)
deriving DecidableEq, Repr

/-- The confirmation interaction, lines 200-302.  A changed non-empty
`modify` input immediately sets `confirmedToExecute = true` and replaces
the command; no re-check of the policy happens. -/
def confirmFlow (command : String) (confirmationReason : String)
    (choice : UserChoice) : GateOutcome :=
  match choice with
  | UserChoice.execute => GateOutcome.run command
  | UserChoice.reject => GateOutcome.resolvedEarly (cancelResult confirmationReason)
  | UserChoice.modify newCmd runOriginal =>
      if (newCmd != "") && (newCmd != command) then GateOutcome.run newCmd
      else if runOriginal then GateOutcome.run command
      else GateOutcome.resolvedEarly (cancelResult confirmationReason)
  | UserChoice.details thenChoice =>
      match thenChoice with
      | DetailsChoice.execute => GateOutcome.run command
      | DetailsChoice.reject => GateOutcome.resolvedEarly (cancelResult confirmationReason)
      | DetailsChoice.modify newCmd runOriginal =>
          if (newCmd != "") && (newCmd != command) then GateOutcome.run newCmd
          else if runOriginal then GateOutcome.run command
          else GateOutcome.resolvedEarly (cancelResult confirmationReason)

/-- The gate result: the pre-spawn outcome together with whether the
AUTO-mode blacklist warning of lines 149-151 was displayed. -/
structure GateResult where
  outcome : GateOutcome
  autoBlacklistWarning : Bool
deriving DecidableEq, Repr

/-- The whole pre-spawn behaviour of `shellExecuteTool.execute`
(lines 118-315): policy check, optional confirmation, early resolutions. -/
def toolGate (mode : CommandExecutionMode) (whitelist blacklist : List String)
    (command : String) (choice : UserChoice) : GateResult :=
  let warned := (mode == CommandExecutionMode.AUTO) && isOnBlacklist blacklist command
  match decidePolicy mode whitelist blacklist command with
  | PolicyResult.messageBlocked => ⟨GateOutcome.resolvedEarly messageModeResult, false⟩
  | PolicyResult.proceed p =>
      if p.needsConfirmation then ⟨confirmFlow command p.confirmationReason choice, warned⟩
      else ⟨GateOutcome.run command, warned⟩

/-! ## Shell tag extraction

Embedding of the directive extraction of
`ShellTagProcessor.processShellTags`
(`src/cli/handlers/shell-tag-processor.ts` and its rewrite
`src/unnamed/part_017`, lines 50-66): a lazy `/<shell>([\s\S]*?)<\/shell>/g`
scan, then per match `match[1].trim().replace(all backticks, empty).trim()`,
pushed only when non-empty. -/

/-- The characters of the opening marker. -/
def openTagChars : List Char := "<shell>".data

/-- The characters of the closing marker. -/
def closeTagChars : List Char := "</shell>".data

/-- One pass of the global lazy regex: repeatedly take the text between
the next `<shell>` and the first `</shell>` after it; stop when either
marker is missing (unclosed markers are ignored).  The fuel argument
bounds the recursion by the text length, which suffices because each
found pair consumes at least the markers themselves. -/
def extractInnersAux : Nat → List Char → List String
  | 0, _ => []
  | Nat.succ fuel, hay =>
      match splitFirst openTagChars hay with
      | none => []
      | some (_, afterOpen) =>
          match splitFirst closeTagChars afterOpen with
          | none => []
          | some (inner, rest) => String.mk inner :: extractInnersAux fuel rest

/-- All captured inner texts of `<shell>...</shell>` pairs, in order. -/
def extractShellInners (response : String) : List String :=
  extractInnersAux response.data.length response.data

/-- Lines 57-60 of `part_017`: trim, delete every backtick, trim again. -/
def stripShellCmd (inner : String) : String :=
  jsTrim (String.mk ((jsTrim inner).data.filter (fun c => c != backtick)))

/-- The command list the processor goes on to execute: each captured
inner text (skipped when empty, since `if (match[1])` treats the empty
capture as falsy), stripped, and kept only when the stripped text is
non-empty. -/
def extractCommands (response : String) : List String :=
  (extractShellInners response).filterMap (fun inner =>
    if inner = "" then none
    else if stripShellCmd inner = "" then none
    else some (stripShellCmd inner))

/-! ## Orchestration loop

Embedding of `TerminalAgent.processAgentResponse` /
`processCommandResults` (`src/cli/terminal-agent.ts`, lines 166-358):
per agent response, append one assistant message, extract directives,
and when directives produced results, append one user message with all
results and recurse on the next agent response. -/

/-- Message roles of `ChatMessage` (`src/cli/types/terminal-types.ts`). -/
inductive Role
  | user
  | assistant
  | system
deriving DecidableEq, Repr

/-- A conversation message. -/
structure ChatMessage where
  role : Role
  content : String
deriving DecidableEq, Repr

/-- A per-command result pair returned by the tag processor
(`CommandExecutionResult` in `part_017`). -/
structure CommandExecutionResult where
  command : String
  output : String
  exitCode : Int
deriving DecidableEq, Repr

/-- The result-summary user message built at lines 240-245 of
`terminal-agent.ts`. -/
def summarizeResults (results : List CommandExecutionResult) : String :=
  results.foldl
    (fun acc r =>
      acc ++ "执行的命令<shell>" ++ r.command ++ "</shell>,这是结果:\n" ++ r.output ++ "\n\n")
    ""

/-- The orchestration loop.  `runCmds` abstracts the tag processor's
confirmation-and-execution of a non-empty command list (an external
collaborator from the loop's point of view); the `List String` argument
is the successive agent responses; the returned `Nat` counts agent
calls.  Fuel bounds the agent/tool ping-pong, which the source leaves
unbounded. -/
def orchestrate (runCmds : List String → List CommandExecutionResult) :
    Nat → List String → List ChatMessage → List ChatMessage × Nat
  | _, [], messages => (messages, 0)
  | 0, _ :: _, messages => (messages, 0)
  | Nat.succ fuel, response :: rest, messages =>
      let messages1 := messages ++ [{ role := Role.assistant, content := response }]
      let cmds := extractCommands response
      if cmds.isEmpty then (messages1, 1)
      else
        let results := runCmds cmds
        if results.isEmpty then (messages1, 1)
        else
          let messages2 := messages1 ++ [{ role := Role.user, content := summarizeResults results }]
          let next := orchestrate runCmds fuel rest messages2
          (next.1, next.2 + 1)

/-! ## Process supervision, guarded rewrite

Event-race semantics of the spawn supervision in the confirmed rewrite
of `shellExecuteTool.execute` (`src/mastra/tools/shell-execute.ts`,
lines 321-436): a `commandFinished` flag, a `removeAllListeners`
cleanup, a SIGINT handler, close/error handlers that return early when
the flag is set, and a timeout timer.  The promise's `resolve` keeps
the first value (`promiseFirst`), exactly as in JavaScript. -/

/-- First-resolution-wins semantics of a JavaScript promise. -/
def promiseFirst (old : Option ExecResult) (r : ExecResult) : Option ExecResult :=
  match old with
  | some x => some x
  | none => some r

/-- The mutable context of one execution: output buffers, the
`commandFinished` flag, whether the timer and the listeners are still
armed, whether `childProcess.kill` was called, and the promise value. -/
structure ExecState where
  stdoutData : String
  stderrData : String
  commandFinished : Bool
  timerArmed : Bool
  sigintListenerOn : Bool
  childListenersOn : Bool
  killed : Bool
  resolved : Option ExecResult
  tmo : Nat
deriving DecidableEq, Repr

/-- The asynchronous events that can reach the handlers. -/
inductive ExecEvent
  | stdoutChunk (d : String)
  | stderrChunk (d : String)
  | close (code : Option Int)
  | error (msg : String)
  | timerFire
  | sigint
deriving DecidableEq, Repr

/-- One handler invocation of the guarded rewrite (lines 335-435):
`close` and `error` return early when `commandFinished` is set and
otherwise clear the timer, remove every listener and resolve; the timer
callback and the SIGINT handler check the flag, kill the child, remove
every listener and resolve with exit code 124 resp. 130.  The SIGINT
handler does not clear the timer (the source does not), and a fired
timer is spent whether or not it acts. -/
def handleEvent : ExecEvent → ExecState → ExecState
  | ExecEvent.stdoutChunk d, s =>
      if s.childListenersOn then { s with stdoutData := s.stdoutData ++ d } else s
  | ExecEvent.stderrChunk d, s =>
      if s.childListenersOn then { s with stderrData := s.stderrData ++ d } else s
  | ExecEvent.close code, s =>
      if !s.childListenersOn then s
      else if s.commandFinished then s
      else
        { s with commandFinished := true, timerArmed := false,
                 sigintListenerOn := false, childListenersOn := false,
                 resolved := promiseFirst s.resolved ⟨s.stdoutData, s.stderrData, code⟩ }
  | ExecEvent.error msg, s =>
      if !s.childListenersOn then s
      else if s.commandFinished then s
      else
        { s with commandFinished := true, timerArmed := false,
                 sigintListenerOn := false, childListenersOn := false,
                 resolved := promiseFirst s.resolved
                   ⟨s.stdoutData, s.stderrData ++ "\nCommand execution error: " ++ msg, some 1⟩ }
  | ExecEvent.timerFire, s =>
      if !s.timerArmed then s
      else if s.commandFinished then { s with timerArmed := false }
      else
        { s with commandFinished := true, timerArmed := false,
                 sigintListenerOn := false, childListenersOn := false, killed := true,
                 resolved := promiseFirst s.resolved
                   ⟨s.stdoutData,
                    s.stderrData ++ "\nCommand execution timed out after " ++ toString s.tmo ++ "ms",
                    some 124⟩ }
  | ExecEvent.sigint, s =>
      if !s.sigintListenerOn then s
      else if s.commandFinished then s
      else
        { s with commandFinished := true,
                 sigintListenerOn := false, childListenersOn := false, killed := true,
                 resolved := promiseFirst s.resolved
                   ⟨s.stdoutData, s.stderrData ++ "\nCommand was interrupted by user", some 130⟩ }

/-- The state right after a successful spawn: empty buffers, flag clear,
listeners registered, timer armed exactly when a timeout was given. -/
def initState (tmo : Nat) (hasTimer : Bool) : ExecState :=
  { stdoutData := "", stderrData := "", commandFinished := false,
    timerArmed := hasTimer, sigintListenerOn := true, childListenersOn := true,
    killed := false, resolved := none, tmo := tmo }

/-- Process a sequence of events in order. -/
def runEvents : ExecState → List ExecEvent → ExecState
  | s, [] => s
  | s, e :: rest => runEvents (handleEvent e s) rest

/-! ## Process supervision, final rewrite

The same semantics for the last rewrite in the file (lines 755-841):
its `close` and `error` handlers do NOT check `commandFinished` (they
set it and resolve unconditionally), its SIGINT and timeout handlers
check the flag but never set it, and only the SIGINT listener is ever
removed. -/

/-- Execution context of the final rewrite (no `removeAllListeners`,
no `clearTimeout`, so no child-listener flag is needed). -/
structure ExecState3 where
  stdoutData : String
  stderrData : String
  commandFinished : Bool
  timerArmed : Bool
  sigintListenerOn : Bool
  killed : Bool
  resolved : Option ExecResult
deriving DecidableEq, Repr

/-- One handler invocation of the final rewrite (lines 763-838). -/
def handleEvent3 : ExecEvent → ExecState3 → ExecState3
  | ExecEvent.stdoutChunk d, s => { s with stdoutData := s.stdoutData ++ d }
  | ExecEvent.stderrChunk d, s => { s with stderrData := s.stderrData ++ d }
  | ExecEvent.close code, s =>
      { s with commandFinished := true, sigintListenerOn := false,
               resolved := promiseFirst s.resolved ⟨s.stdoutData, s.stderrData, code⟩ }
  | ExecEvent.error msg, s =>
      { s with commandFinished := true, sigintListenerOn := false,
               resolved := promiseFirst s.resolved
                 ⟨s.stdoutData, s.stderrData ++ "\nCommand execution error: " ++ msg, some 1⟩ }
  | ExecEvent.timerFire, s =>
      if !s.timerArmed then s
      else if s.commandFinished then { s with timerArmed := false }
      else
        { s with timerArmed := false, sigintListenerOn := false, killed := true,
                 resolved := promiseFirst s.resolved
                   ⟨s.stdoutData, s.stderrData ++ "\nCommand execution timed out", some 124⟩ }
  | ExecEvent.sigint, s =>
      if !s.sigintListenerOn then s
      else if s.commandFinished then s
      else
        { s with sigintListenerOn := false, killed := true,
                 resolved := promiseFirst s.resolved
                   ⟨s.stdoutData, s.stderrData ++ "\nCommand was interrupted by user", some 130⟩ }

/-- Spawn state of the final rewrite. -/
def initState3 (hasTimer : Bool) : ExecState3 :=
  { stdoutData := "", stderrData := "", commandFinished := false,
    timerArmed := hasTimer, sigintListenerOn := true,
    killed := false, resolved := none }

/-- Process a sequence of events in order (final rewrite). -/
def runEvents3 : ExecState3 → List ExecEvent → ExecState3
  | s, [] => s
  | s, e :: rest => runEvents3 (handleEvent3 e s) rest

/-! ## Helper lemmas -/

/-- Membership in the whitelist check unfolded to an existential. -/
lemma isOnWhitelist_eq_true_iff (wl : List String) (cmd : String) :
    isOnWhitelist wl cmd = true ↔ ∃ w ∈ wl, jsStartsWith cmd w = true ∨ cmd = w := by
  simp [isOnWhitelist, List.any_eq_true, Bool.or_eq_true, beq_iff_eq]

/-- Membership in the blacklist check unfolded to an existential. -/
lemma isOnBlacklist_eq_true_iff (bl : List String) (cmd : String) :
    isOnBlacklist bl cmd = true ↔ ∃ b ∈ bl, jsIncludes cmd b = true := by
  simp [isOnBlacklist, List.any_eq_true]

/-- Every extracted command is a stripped captured inner text and is non-empty. -/
lemma mem_extractCommands (response c : String) (hc : c ∈ extractCommands response) :
    ∃ inner ∈ extractShellInners response, c = stripShellCmd inner ∧ c ≠ "" := by
  simp only [extractCommands, List.mem_filterMap] at hc
  obtain ⟨inner, hmem, hf⟩ := hc
  by_cases h1 : inner = ""
  · rw [if_pos h1] at hf
    exact absurd hf (by simp)
  · rw [if_neg h1] at hf
    by_cases h2 : stripShellCmd inner = ""
    · rw [if_pos h2] at hf
      exact absurd hf (by simp)
    · rw [if_neg h2] at hf
      have hsc : stripShellCmd inner = c := Option.some.inj hf
      exact ⟨inner, hmem, hsc.symm, fun he => h2 (hsc.trans he)⟩

/-- The empty string is never among the extracted commands. -/
lemma extractCommands_mem_ne_empty (response c : String)
    (hc : c ∈ extractCommands response) : c ≠ "" := by
  obtain ⟨inner, _, _, hne⟩ := mem_extractCommands response c hc
  exact hne

/-- Once the guarded rewrite's flag is set, no event changes the promise
value, the flag, or the kill status. -/
lemma handleEvent_finished (ev : ExecEvent) (s : ExecState) (h : s.commandFinished = true) :
    (handleEvent ev s).resolved = s.resolved
  ∧ (handleEvent ev s).commandFinished = true
  ∧ (handleEvent ev s).killed = s.killed := by
  cases ev <;> simp only [handleEvent] <;> split_ifs <;> simp_all

/-- Iterated version of `handleEvent_finished`. -/
lemma runEvents_finished (evs : List ExecEvent) (s : ExecState) (h : s.commandFinished = true) :
    (runEvents s evs).resolved = s.resolved
  ∧ (runEvents s evs).commandFinished = true
  ∧ (runEvents s evs).killed = s.killed := by
  induction evs generalizing s with
  | nil => exact ⟨rfl, h, rfl⟩
  | cons e rest ih =>
      have h1 := handleEvent_finished e s h
      have h2 := ih (handleEvent e s) h1.2.1
      simp only [runEvents]
      exact ⟨h2.1.trans h1.1, h2.2.1, h2.2.2.trans h1.2.2⟩

/-- In the guarded rewrite the promise value, once set, never changes. -/
lemma handleEvent_resolved_mono (ev : ExecEvent) (s : ExecState) (r : ExecResult)
    (h : s.resolved = some r) : (handleEvent ev s).resolved = some r := by
  cases ev <;> simp only [handleEvent] <;> split_ifs <;> simp_all [promiseFirst]

/-- Iterated version of `handleEvent_resolved_mono`. -/
lemma runEvents_resolved_mono (s : ExecState) (evs : List ExecEvent) (r : ExecResult)
    (h : s.resolved = some r) : (runEvents s evs).resolved = some r := by
  induction evs generalizing s with
  | nil => simpa [runEvents] using h
  | cons e rest ih =>
      simp only [runEvents]
      exact ih (handleEvent e s) (handleEvent_resolved_mono e s r h)

/-- In the final rewrite the promise value, once set, never changes
either — but only because promise resolution is first-wins, not because
of the flag. -/
lemma handleEvent3_resolved_mono (ev : ExecEvent) (s : ExecState3) (r : ExecResult)
    (h : s.resolved = some r) : (handleEvent3 ev s).resolved = some r := by
  cases ev <;> simp only [handleEvent3] <;> (try split_ifs) <;> simp_all [promiseFirst]

/-- Iterated version of `handleEvent3_resolved_mono`. -/
lemma runEvents3_resolved_mono (s : ExecState3) (evs : List ExecEvent) (r : ExecResult)
    (h : s.resolved = some r) : (runEvents3 s evs).resolved = some r := by
  induction evs generalizing s with
  | nil => simpa [runEvents3] using h
  | cons e rest ih =>
      simp only [runEvents3]
      exact ih (handleEvent3 e s) (handleEvent3_resolved_mono e s r h)

/-- Invariant of the guarded rewrite: a resolved execution has its flag set. -/
def resolvedImpliesFinished (s : ExecState) : Prop :=
  s.resolved.isSome = true → s.commandFinished = true

/-- Every handler of the guarded rewrite preserves the invariant. -/
lemma handleEvent_preserves_rif (ev : ExecEvent) (s : ExecState)
    (h : resolvedImpliesFinished s) : resolvedImpliesFinished (handleEvent ev s) := by
  cases ev <;> simp only [handleEvent] <;> split_ifs <;>
    (intro hr; first | rfl | exact h hr)

/-- Event sequences preserve the invariant. -/
lemma runEvents_preserves_rif (evs : List ExecEvent) (s : ExecState)
    (h : resolvedImpliesFinished s) : resolvedImpliesFinished (runEvents s evs) := by
  induction evs generalizing s with
  | nil => simpa [runEvents] using h
  | cons e rest ih =>
      simp only [runEvents]
      exact ih (handleEvent e s) (handleEvent_preserves_rif e s h)

/-- The spawn state satisfies the invariant. -/
lemma initState_rif (tmo : Nat) (hasTimer : Bool) :
    resolvedImpliesFinished (initState tmo hasTimer) := by
  intro hr
  simp [initState] at hr

/-! ## Claim theorems -/

/-- C1: Under mode ALLOWLIST (the source's WHITELIST), a command that
starts with or equals some allow-list entry is ALLOWed with reason
ALLOWLISTED (`needsConfirmation = false`, reason `"whitelist"`) and runs
without any confirmation, regardless of deny-list membership; otherwise
the decision is CONFIRM (`needsConfirmation = true`), with reason
DENYLISTED (`"blacklist"`) and `suggestedDefault = false` when the
command contains a deny-list entry as a substring, and with reason
UNLISTED (`"other"`) and `suggestedDefault = true` otherwise. -/
theorem claim_C1_allowlist_policy (wl bl : List String) (cmd : String) :
    ((∃ w ∈ wl, jsStartsWith cmd w = true ∨ cmd = w) →
        decidePolicy CommandExecutionMode.WHITELIST wl bl cmd
          = PolicyResult.proceed ⟨false, "whitelist", true⟩
      ∧ ∀ choice, toolGate CommandExecutionMode.WHITELIST wl bl cmd choice
          = ⟨GateOutcome.run cmd, false⟩)
  ∧ ((¬ ∃ w ∈ wl, jsStartsWith cmd w = true ∨ cmd = w) →
      (∃ b ∈ bl, jsIncludes cmd b = true) →
        decidePolicy CommandExecutionMode.WHITELIST wl bl cmd
          = PolicyResult.proceed ⟨true, "blacklist", false⟩)
  ∧ ((¬ ∃ w ∈ wl, jsStartsWith cmd w = true ∨ cmd = w) →
      (¬ ∃ b ∈ bl, jsIncludes cmd b = true) →
        decidePolicy CommandExecutionMode.WHITELIST wl bl cmd
          = PolicyResult.proceed ⟨true, "other", true⟩) := by
  refine ⟨?_, ?_, ?_⟩
  · intro hw
    have h1 : isOnWhitelist wl cmd = true := (isOnWhitelist_eq_true_iff wl cmd).mpr hw
    refine ⟨by simp [decidePolicy, h1], ?_⟩
    intro choice
    simp [toolGate, decidePolicy, h1]
  · intro hw hb
    have h1 : isOnWhitelist wl cmd = false := by
      cases h : isOnWhitelist wl cmd
      · rfl
      · exact absurd ((isOnWhitelist_eq_true_iff wl cmd).mp h) hw
    have h2 : isOnBlacklist bl cmd = true := (isOnBlacklist_eq_true_iff bl cmd).mpr hb
    simp [decidePolicy, h1, h2]
  · intro hw hb
    have h1 : isOnWhitelist wl cmd = false := by
      cases h : isOnWhitelist wl cmd
      · rfl
      · exact absurd ((isOnWhitelist_eq_true_iff wl cmd).mp h) hw
    have h2 : isOnBlacklist bl cmd = false := by
      cases h : isOnBlacklist bl cmd
      · rfl
      · exact absurd ((isOnBlacklist_eq_true_iff bl cmd).mp h) hb
    simp [decidePolicy, h1, h2]

/-- Witness for C1, on the spec's own scenario: policy
`{mode: ALLOWLIST, allowList: [ls], denyList: [rm -rf]}`. -/
theorem claim_C1_allowlist_policy_witness :
    decidePolicy CommandExecutionMode.WHITELIST ["ls"] ["rm -rf"] ("ls -la")
      = PolicyResult.proceed ⟨false, "whitelist", true⟩
  ∧ decidePolicy CommandExecutionMode.WHITELIST ["ls"] ["rm -rf"] ("rm -rf /tmp/x")
      = PolicyResult.proceed ⟨true, "blacklist", false⟩
  ∧ decidePolicy CommandExecutionMode.WHITELIST ["ls"] ["rm -rf"] ("echo hi")
      = PolicyResult.proceed ⟨true, "other", true⟩ :=
  ⟨((claim_C1_allowlist_policy ["ls"] ["rm -rf"] ("ls -la")).1 (by decide)).1,
   (claim_C1_allowlist_policy ["ls"] ["rm -rf"] ("rm -rf /tmp/x")).2.1 (by decide) (by decide),
   (claim_C1_allowlist_policy ["ls"] ["rm -rf"] ("echo hi")).2.2 (by decide) (by decide)⟩

/-- C2: Under mode AUTO the decision is ALLOW and the command is run
without any confirmation (the user's choice is never consulted), even
when the command substring-matches a deny-list entry; in exactly that
case the warning of lines 149-151 is surfaced, and execution still
proceeds unconditionally. -/
theorem claim_C2_auto_mode (wl bl : List String) (cmd : String) (choice : UserChoice) :
    toolGate CommandExecutionMode.AUTO wl bl cmd choice
      = ⟨GateOutcome.run cmd, isOnBlacklist bl cmd⟩ := by
  simp [toolGate, decidePolicy]

/-- C3 counterexample: with policy `{mode: ALLOWLIST, allowList: [ls],
denyList: [rm -rf]}`, confirming `echo hi` via edit-then-execute with
new text `rm -rf /tmp/x` runs the edited command directly, although the
Policy Engine on the edited text demands confirmation (DENYLISTED) — so
evaluation does NOT restart at step 1 on the new text. -/
theorem claim_C3_counterexample :
    (toolGate CommandExecutionMode.WHITELIST ["ls"] ["rm -rf"] ("echo hi")
        (UserChoice.modify ("rm -rf /tmp/x") false)).outcome
      = GateOutcome.run ("rm -rf /tmp/x")
  ∧ decidePolicy CommandExecutionMode.WHITELIST ["ls"] ["rm -rf"] ("rm -rf /tmp/x")
      = PolicyResult.proceed ⟨true, "blacklist", false⟩ :=
  ⟨by decide, by decide⟩

/-- C3 (amended): when a CONFIRM prompt's edit-then-execute choice is
taken and the user supplies non-empty text different from the original,
the edited command is executed directly — the Policy Engine is NOT
re-run on the edited text, whatever that text is. -/
theorem claim_C3_modify_skips_policy (mode : CommandExecutionMode) (wl bl : List String)
    (cmd newCmd : String) (p : PolicyOutcome) (runOriginal : Bool)
    (hd : decidePolicy mode wl bl cmd = PolicyResult.proceed p)
    (hc : p.needsConfirmation = true)
    (h1 : newCmd ≠ "") (h2 : newCmd ≠ cmd) :
    (toolGate mode wl bl cmd (UserChoice.modify newCmd runOriginal)).outcome
      = GateOutcome.run newCmd := by
  simp [toolGate, hd, hc, confirmFlow, h1, h2]

/-- Witness for the amended C3: an unlisted command edited into a
deny-listed one is still run directly. -/
theorem claim_C3_modify_skips_policy_witness :
    (toolGate CommandExecutionMode.WHITELIST defaultCommandWhitelist defaultCommandBlacklist
        ("git push") (UserChoice.modify ("sudo reboot") false)).outcome
      = GateOutcome.run ("sudo reboot") :=
  claim_C3_modify_skips_policy CommandExecutionMode.WHITELIST defaultCommandWhitelist
    defaultCommandBlacklist ("git push") ("sudo reboot") ⟨true, "other", true⟩ false
    (by decide) rfl (by decide) (by decide)

/-- C4 counterexample: for the empty command text under mode AUTO with
the default lists, the policy check returns ALLOW (not DENY) and the
gate proceeds to spawn the empty command — process execution IS
reached, falsifying "empty command text → DENY, never reaches process
execution, in every execution mode". -/
theorem claim_C4_counterexample :
    decidePolicy CommandExecutionMode.AUTO defaultCommandWhitelist defaultCommandBlacklist ("")
      = PolicyResult.proceed ⟨false, "auto", true⟩
  ∧ (toolGate CommandExecutionMode.AUTO defaultCommandWhitelist defaultCommandBlacklist ("")
        UserChoice.execute).outcome
      = GateOutcome.run ("") :=
  ⟨by decide, by decide⟩

/-- C4 (amended): the policy check has no emptiness test — under AUTO
the empty command is allowed and reaches the spawn, for every pair of
lists; an empty command can only be stopped upstream, where the tag
extractor silently drops every directive whose stripped text is empty,
so no empty command is ever extracted from an agent response. -/
theorem claim_C4_no_empty_check :
    (∀ (wl bl : List String) (choice : UserChoice),
        (toolGate CommandExecutionMode.AUTO wl bl ("") choice).outcome = GateOutcome.run (""))
  ∧ (∀ response c, c ∈ extractCommands response → c ≠ ("")) := by
  constructor
  · intro wl bl choice
    simp [toolGate, decidePolicy]
  · exact extractCommands_mem_ne_empty

/-- Witness for the amended C4. -/
theorem claim_C4_no_empty_check_witness :
    (toolGate CommandExecutionMode.AUTO [] [] ("") UserChoice.reject).outcome
      = GateOutcome.run ("")
  ∧ ("ls" : String) ≠ ("") :=
  ⟨claim_C4_no_empty_check.1 [] [] UserChoice.reject,
   claim_C4_no_empty_check.2 ("<shell>ls</shell>") ("ls") (by decide)⟩

/-- C5 counterexample: a MESSAGE-mode denial resolves with exit code 0,
not the generic-failure exit code 1 — so 0 is not reserved for
successful execution. -/
theorem claim_C5_counterexample :
    toolGate CommandExecutionMode.MESSAGE ["ls"] ["rm -rf"] ("echo hi") UserChoice.execute
      = ⟨GateOutcome.resolvedEarly ⟨"", "Command not executed (MESSAGE mode).", some 0⟩, false⟩
  ∧ messageModeResult.exitCode ≠ some 1 :=
  ⟨by decide, by decide⟩

/-- C5 (amended): a confirmation refused by the user does resolve with
exit code 1 and a cancellation message, but a MESSAGE-mode denial
resolves with exit code 0 (`Command not executed (MESSAGE mode).`), so
exit code 0 is not reserved for successful execution. -/
theorem claim_C5_exit_codes :
    (∀ (wl bl : List String) (cmd : String) (choice : UserChoice),
        (toolGate CommandExecutionMode.MESSAGE wl bl cmd choice).outcome
          = GateOutcome.resolvedEarly messageModeResult
        ∧ messageModeResult.exitCode = some 0)
  ∧ (∀ (mode : CommandExecutionMode) (wl bl : List String) (cmd : String) (p : PolicyOutcome),
        decidePolicy mode wl bl cmd = PolicyResult.proceed p →
        p.needsConfirmation = true →
          (toolGate mode wl bl cmd UserChoice.reject).outcome
            = GateOutcome.resolvedEarly (cancelResult p.confirmationReason)
          ∧ (cancelResult p.confirmationReason).exitCode = some 1) := by
  constructor
  · intro wl bl cmd choice
    exact ⟨by simp [toolGate, decidePolicy], rfl⟩
  · intro mode wl bl cmd p hd hc
    exact ⟨by simp [toolGate, hd, hc, confirmFlow], rfl⟩

/-- Witness for the amended C5. -/
theorem claim_C5_exit_codes_witness :
    ((toolGate CommandExecutionMode.MESSAGE [] [] ("ls") UserChoice.execute).outcome
        = GateOutcome.resolvedEarly messageModeResult
      ∧ messageModeResult.exitCode = some 0)
  ∧ ((toolGate CommandExecutionMode.WHITELIST ["ls"] [] ("cp a b") UserChoice.reject).outcome
        = GateOutcome.resolvedEarly (cancelResult ("other"))
      ∧ (cancelResult ("other")).exitCode = some 1) :=
  ⟨claim_C5_exit_codes.1 [] [] ("ls") UserChoice.execute,
   claim_C5_exit_codes.2 CommandExecutionMode.WHITELIST ["ls"] [] ("cp a b")
     ⟨true, "other", true⟩ (by decide) rfl⟩

/-- C6: in the guarded rewrite, when the armed timer fires while the
command has not finished, the child is killed and the promise resolves
with the timeout outcome (exit code 124, the encoding of
`timedOut = true`); every close or error event arriving afterwards is
ignored — the promise value never changes again. -/
theorem claim_C6_timeout (s : ExecState)
    (ht : s.timerArmed = true) (hf : s.commandFinished = false) (hr : s.resolved = none) :
    (handleEvent ExecEvent.timerFire s).resolved
        = some ⟨s.stdoutData,
                s.stderrData ++ "\nCommand execution timed out after " ++ toString s.tmo ++ "ms",
                some 124⟩
  ∧ (handleEvent ExecEvent.timerFire s).killed = true
  ∧ (handleEvent ExecEvent.timerFire s).commandFinished = true
  ∧ ∀ evs, (runEvents (handleEvent ExecEvent.timerFire s) evs).resolved
        = (handleEvent ExecEvent.timerFire s).resolved := by
  refine ⟨by simp [handleEvent, ht, hf, hr, promiseFirst], ?_, ?_, ?_⟩
  · simp [handleEvent, ht, hf]
  · simp [handleEvent, ht, hf]
  · intro evs
    exact (runEvents_finished evs (handleEvent ExecEvent.timerFire s)
      (by simp [handleEvent, ht, hf])).1

/-- Witness for C6: a 500 ms timer fires on a fresh execution; a close
event arriving afterwards does not change the resolved outcome. -/
theorem claim_C6_timeout_witness :
    (handleEvent ExecEvent.timerFire (initState 500 true)).resolved
      = some ⟨"", "" ++ "\nCommand execution timed out after " ++ toString (500 : Nat) ++ "ms",
              some 124⟩
  ∧ (handleEvent ExecEvent.timerFire (initState 500 true)).killed = true
  ∧ (runEvents (handleEvent ExecEvent.timerFire (initState 500 true))
        [ExecEvent.close (some 0)]).resolved
      = (handleEvent ExecEvent.timerFire (initState 500 true)).resolved :=
  ⟨(claim_C6_timeout (initState 500 true) rfl rfl rfl).1,
   (claim_C6_timeout (initState 500 true) rfl rfl rfl).2.1,
   (claim_C6_timeout (initState 500 true) rfl rfl rfl).2.2.2 [ExecEvent.close (some 0)]⟩

/-- C7: for every state reachable from a spawn, an interrupt signal
arriving mid-run (flag clear, listener registered, promise pending)
kills the child and resolves with exit code 130 (the encoding of
`interrupted = true`); and once the execution has resolved, a further
interrupt signal has no observable effect at all — the state is
unchanged, so there is no second resolution and no thrown error. -/
theorem claim_C7_interrupt (tmo : Nat) (hasTimer : Bool) (evs : List ExecEvent) (s : ExecState)
    (hs : s = runEvents (initState tmo hasTimer) evs) :
    (s.commandFinished = false → s.sigintListenerOn = true → s.resolved = none →
        (handleEvent ExecEvent.sigint s).resolved
          = some ⟨s.stdoutData, s.stderrData ++ "\nCommand was interrupted by user", some 130⟩
        ∧ (handleEvent ExecEvent.sigint s).killed = true)
  ∧ (∀ r : ExecResult, s.resolved = some r → handleEvent ExecEvent.sigint s = s) := by
  constructor
  · intro h1 h2 h3
    constructor
    · simp [handleEvent, h1, h2, h3, promiseFirst]
    · simp [handleEvent, h1, h2]
  · intro r hr
    have hinv : resolvedImpliesFinished s := by
      rw [hs]
      exact runEvents_preserves_rif evs (initState tmo hasTimer) (initState_rif tmo hasTimer)
    have hfin : s.commandFinished = true := hinv (by simp [hr])
    simp [handleEvent, hfin]

/-- Witness for C7: an interrupt on a fresh execution resolves with 130,
and a second interrupt after that resolution leaves the state unchanged. -/
theorem claim_C7_interrupt_witness :
    ((handleEvent ExecEvent.sigint (initState 0 false)).resolved
        = some ⟨"", "\nCommand was interrupted by user", some 130⟩
      ∧ (handleEvent ExecEvent.sigint (initState 0 false)).killed = true)
  ∧ handleEvent ExecEvent.sigint (runEvents (initState 0 false) [ExecEvent.sigint])
      = runEvents (initState 0 false) [ExecEvent.sigint] :=
  ⟨(claim_C7_interrupt 0 false [] (initState 0 false) rfl).1 rfl rfl rfl,
   (claim_C7_interrupt 0 false [ExecEvent.sigint]
       (runEvents (initState 0 false) [ExecEvent.sigint]) rfl).2
     ⟨"", "\nCommand was interrupted by user", some 130⟩ (by decide)⟩

/-- C8 counterexample: in the final rewrite of the tool (lines 755-841)
the close handler does not check the `commandFinished` flag and the
timeout handler does not set it, so after the timer has already
resolved the outcome (exit code 124), a later close event is NOT a
no-op: it still mutates the state (setting the flag and re-running its
resolution) — only first-resolution-wins keeps the outcome unchanged. -/
theorem claim_C8_counterexample :
    (handleEvent3 ExecEvent.timerFire (initState3 true)).resolved
      = some ⟨"", "\nCommand execution timed out", some 124⟩
  ∧ handleEvent3 (ExecEvent.close (some 0)) (handleEvent3 ExecEvent.timerFire (initState3 true))
      ≠ handleEvent3 ExecEvent.timerFire (initState3 true)
  ∧ (handleEvent3 (ExecEvent.close (some 0))
        (handleEvent3 ExecEvent.timerFire (initState3 true))).resolved
      = some ⟨"", "\nCommand execution timed out", some 124⟩ :=
  ⟨by decide, by decide, by decide⟩

/-- C8 (amended): every execution produces exactly one outcome, but the
mechanism differs between rewrites.  In the guarded rewrite the
`commandFinished` flag does make every later terminal event a no-op on
the promise value, the flag and the kill status, and the promise value
never changes once set.  In the final rewrite later terminal events are
not no-ops (see the counterexample); the outcome is still unique only
because promise resolution is first-wins. -/
theorem claim_C8_single_resolution :
    (∀ (ev : ExecEvent) (s : ExecState), s.commandFinished = true →
        (handleEvent ev s).resolved = s.resolved
        ∧ (handleEvent ev s).commandFinished = true
        ∧ (handleEvent ev s).killed = s.killed)
  ∧ (∀ (s : ExecState) (evs : List ExecEvent) (r : ExecResult),
        s.resolved = some r → (runEvents s evs).resolved = some r)
  ∧ (∀ (s : ExecState3) (evs : List ExecEvent) (r : ExecResult),
        s.resolved = some r → (runEvents3 s evs).resolved = some r) :=
  ⟨handleEvent_finished, runEvents_resolved_mono, runEvents3_resolved_mono⟩

/-- Witness for the amended C8, on concrete timed-out executions of both
rewrites. -/
theorem claim_C8_single_resolution_witness :
    (handleEvent (ExecEvent.close (some 0))
        (handleEvent ExecEvent.timerFire (initState 9 true))).resolved
      = (handleEvent ExecEvent.timerFire (initState 9 true)).resolved
  ∧ (runEvents3 (handleEvent3 ExecEvent.timerFire (initState3 true))
        [ExecEvent.close (some 0)]).resolved
      = some ⟨"", "\nCommand execution timed out", some 124⟩ :=
  ⟨(claim_C8_single_resolution.1 (ExecEvent.close (some 0))
      (handleEvent ExecEvent.timerFire (initState 9 true)) (by decide)).1,
   claim_C8_single_resolution.2.2 (handleEvent3 ExecEvent.timerFire (initState3 true))
     [ExecEvent.close (some 0)] ⟨"", "\nCommand execution timed out", some 124⟩ (by decide)⟩

/-- C9: when an agent response contains zero command directives, the
orchestration loop terminates after exactly one agent call and the
conversation gains exactly one new assistant message and no user
message, whatever agent responses would follow and whatever the command
runner would do. -/
theorem claim_C9_zero_directives (runCmds : List String → List CommandExecutionResult)
    (fuel : Nat) (rest : List String) (messages : List ChatMessage) (response : String)
    (h : extractCommands response = []) :
    orchestrate runCmds (fuel + 1) (response :: rest) messages
      = (messages ++ [{ role := Role.assistant, content := response }], 1) := by
  simp [orchestrate, h]

/-- Witness for C9: a directive-free response on an empty conversation. -/
theorem claim_C9_zero_directives_witness :
    orchestrate (fun _ => []) 1 [("hello")] []
      = ([{ role := Role.assistant, content := "hello" }], 1) :=
  claim_C9_zero_directives (fun _ => []) 0 [] [] ("hello") (by decide)

/-- C10: every command the tag processor passes on is a captured inner
text trimmed with all backticks deleted and is non-empty; consequently
a directive whose command contains backticks is executed in altered
form (`echo backquote date backquote` becomes `echo date`), and a
directive whose inner text is only whitespace and backticks is silently
dropped rather than reported or denied. -/
theorem claim_C10_extraction :
    (∀ response c, c ∈ extractCommands response →
        ∃ inner ∈ extractShellInners response, c = stripShellCmd inner ∧ c ≠ (""))
  ∧ extractCommands ("run <shell>echo `date`</shell> now") = ["echo date"]
  ∧ ("echo date" : String) ≠ ("echo `date`")
  ∧ extractCommands ("<shell> ``` </shell>") = [] :=
  ⟨mem_extractCommands, by decide, by decide, by decide⟩

/-- Witness for C10. -/
theorem claim_C10_extraction_witness :
    ∃ inner ∈ extractShellInners ("<shell>ls</shell>"),
      ("ls" : String) = stripShellCmd inner ∧ ("ls" : String) ≠ ("") :=
  claim_C10_extraction.1 ("<shell>ls</shell>") ("ls") (by decide)

end Closx
